import Mathlib

/-!
Verification of the run lifecycle monitor of the entities SDK
(`src/entities/utils/run_monitor.py`, class `HttpRunMonitor`, and
`src/entities/utils/monitor_launcher.py`, class `MonitorLauncher`).

Modelling choices (shallow embedding):

* A run record (`run` in the Python loop) exposes the `status` string that
  the monitor interprets and an opaque payload standing for `run.dict()`,
  modelled as a `Nat` token.
* Python exceptions are modelled by `Except String` results (fetches) and by
  `Option String` flags (`some msg` = the callback raises an exception with
  message `msg` when invoked during that iteration).
* Each iteration of `_monitor_loop` consumes one `PollInput`: the outcome of
  `runs_client.retrieve_run`, the outcome of
  `actions_client.get_pending_actions` (consulted only when the loop actually
  performs that fetch), and whether each caller callback raises.
* The unbounded `while not self._stop_event.is_set()` loop is run over a
  finite list of `PollInput`s: exhausting the list models the stop event
  being observed at the loop head.  Breaking out of the loop is modelled by
  not consuming the remaining inputs; `pollCount` counts the iterations
  actually performed.
* Callback invocations are the observable trace: each invocation appends one
  `Event` in invocation order.
* The thread bookkeeping of `start` / `stop` / `is_active`
  (`_monitor_thread`, `_stop_event`, `_last_status`) is modelled by
  `HttpRunMonitor.State`; `start` additionally reports whether a new thread
  was spawned.
* `TERMINAL_STATUSES` and `ACTION_REQUIRED_STATUS` are imported by the code
  from `entities.constants.platform`, a module not present in the
  repository's files; they are kept abstract as fields of `MonitorConfig`
  and instantiated with the spec's values where a claim fixes them.
-/

namespace EntitiesSDK

/-- The run record as seen by the monitor: the `status` field it interprets
and an opaque token standing for the `run.dict()` export passed to
callbacks. -/
structure Run where
  status : String
  data : Nat
deriving DecidableEq

/-- Configuration of one `HttpRunMonitor` instance: `run_id`, the
`TERMINAL_STATUSES` set, the `ACTION_REQUIRED_STATUS` constant, and whether
the optional `on_action_required` callback was supplied (its truthiness in
`if ... and self.on_action_required`). -/
structure MonitorConfig where
  runId : String
  terminalStatuses : List String
  actionRequiredStatus : String
  hasActionRequired : Bool

/-- The environment's behaviour during one poll iteration: the outcome of
`runs_client.retrieve_run(run_id)`, the outcome of
`actions_client.get_pending_actions(run_id)`, and for each caller callback
whether this invocation raises (`some msg`) or returns normally (`none`). -/
structure PollInput where
  fetchRun : Except String Run
  fetchActions : Except String (List Nat)
  statusChangeRaises : Option String
  actionRequiredRaises : Option String
  completeRaises : Option String

/-- One callback invocation, in invocation order. -/
inductive Event where
  | statusChange (runId : String) (newStatus : String) (oldStatus : Option String)
      (runData : Nat)
  | actionRequired (runId : String) (runData : Nat) (actions : List Nat)
  | complete (runId : String) (finalStatus : String) (runData : Nat)
  | error (runId : String) (message : String)
deriving DecidableEq

def Event.isStatusChange : Event → Bool
  | .statusChange _ _ _ _ => true
  | _ => false

def Event.isComplete : Event → Bool
  | .complete _ _ _ => true
  | _ => false

def Event.isError : Event → Bool
  | .error _ _ => true
  | _ => false

def Event.isActionRequired : Event → Bool
  | .actionRequired _ _ _ => true
  | _ => false

/-- Result of one loop iteration: the callback invocations it performed, the
value of `self._last_status` afterwards, and whether the loop continues
(`cont = false` models `break` or an exception escaping the iteration's
outer `try`). -/
structure IterResult where
  events : List Event
  lastStatus : Option String
  cont : Bool
deriving DecidableEq

/-- Result of running the loop: all callback invocations, the final
`self._last_status`, and how many poll iterations were performed. -/
structure LoopResult where
  events : List Event
  lastStatus : Option String
  pollCount : Nat
deriving DecidableEq

namespace HttpRunMonitor

/-- The `if current_status == ACTION_REQUIRED_STATUS and self.on_action_required`
block of `_monitor_loop` (run_monitor.py lines 67-72).  The inner
`try/except` catches both a failing `get_pending_actions` fetch and an
exception raised by the `on_action_required` callback itself, converting
either into an `on_error` invocation with the message prefix
`Error fetching actions: `; in both cases the loop continues. -/
def actionEvents (cfg : MonitorConfig) (run : Run) (inp : PollInput) : List Event :=
  if run.status = cfg.actionRequiredStatus ∧ cfg.hasActionRequired = true then
    match inp.fetchActions with
    | .error e => [.error cfg.runId ("Error fetching actions: " ++ e)]
    | .ok acts =>
      match inp.actionRequiredRaises with
      | some e =>
        [.actionRequired cfg.runId run.data acts,
         .error cfg.runId ("Error fetching actions: " ++ e)]
      | none => [.actionRequired cfg.runId run.data acts]
  else []

/-- The `if current_status in TERMINAL_STATUSES` block of `_monitor_loop`
(run_monitor.py lines 74-76), given the events `evs` already produced in
this iteration and the current `self._last_status` value `last`.  On a
terminal status `on_complete` is invoked and the loop stops (`break`); if
`on_complete` raises, the outer `except` reports via `on_error` and the loop
stops as well. -/
def terminalCheck (cfg : MonitorConfig) (run : Run) (inp : PollInput)
    (evs : List Event) (last : Option String) : IterResult :=
  if run.status ∈ cfg.terminalStatuses then
    match inp.completeRaises with
    | some e =>
      ⟨evs ++ [.complete cfg.runId run.status run.data,
               .error cfg.runId ("Run monitoring error: " ++ e)], last, false⟩
    | none =>
      ⟨evs ++ [.complete cfg.runId run.status run.data], last, false⟩
  else ⟨evs, last, true⟩

/-- One iteration of the `while` body of `HttpRunMonitor._monitor_loop`
(run_monitor.py lines 58-82).  A failing `retrieve_run` is caught by the
outer `except`: one `on_error` invocation and `break`.  If the polled status
differs from `self._last_status`, `on_status_change` is invoked and only
then `self._last_status` is assigned; an exception raised by
`on_status_change` reaches the outer `except` before that assignment, so
`on_error` is invoked, the loop stops and `_last_status` keeps its old
value. -/
def stepIter (cfg : MonitorConfig) (last : Option String) (inp : PollInput) :
    IterResult :=
  match inp.fetchRun with
  | .error e => ⟨[.error cfg.runId ("Run monitoring error: " ++ e)], last, false⟩
  | .ok run =>
    if last ≠ some run.status then
      match inp.statusChangeRaises with
      | some e =>
        ⟨[.statusChange cfg.runId run.status last run.data,
          .error cfg.runId ("Run monitoring error: " ++ e)], last, false⟩
      | none =>
        terminalCheck cfg run inp
          (.statusChange cfg.runId run.status last run.data ::
            actionEvents cfg run inp)
          (some run.status)
    else
      terminalCheck cfg run inp (actionEvents cfg run inp) last

/-- `HttpRunMonitor._monitor_loop` over a finite list of poll inputs,
starting from `self._last_status = last`.  An empty list models the stop
event being set at the loop head; a `cont = false` iteration stops the loop
without consuming the remaining inputs. -/
def monitorLoop (cfg : MonitorConfig) (last : Option String) :
    List PollInput → LoopResult
  | [] => ⟨[], last, 0⟩
  | inp :: rest =>
    let r := stepIter cfg last inp
    if r.cont then
      let r2 := monitorLoop cfg r.lastStatus rest
      ⟨r.events ++ r2.events, r2.lastStatus, r2.pollCount + 1⟩
    else ⟨r.events, r.lastStatus, 1⟩

/-- The mutable state of an `HttpRunMonitor` instance as far as
`start` / `stop` / `is_active` observe it: whether `self._monitor_thread`
is not `None`, whether that thread is alive, whether `self._stop_event` is
set, and `self._last_status`. -/
structure State where
  threadExists : Bool
  threadAlive : Bool
  stopSet : Bool
  lastStatus : Option String
deriving DecidableEq

/-- State right after `HttpRunMonitor.__init__`: no thread, stop event
clear, `_last_status = None`. -/
def State.initial : State := ⟨false, false, false, none⟩

/-- `HttpRunMonitor.start` (run_monitor.py lines 39-44): if a monitor
thread exists and is alive, return without effect; otherwise clear the stop
event and spawn a new daemon thread running `_monitor_loop`.  The returned
`Bool` records whether a new thread was spawned. -/
def start (s : State) : State × Bool :=
  if s.threadExists = true ∧ s.threadAlive = true then (s, false)
  else ({ s with threadExists := true, threadAlive := true, stopSet := false }, true)

/-- `HttpRunMonitor.stop` (run_monitor.py lines 46-49): set the stop event,
then join the thread if one exists (after the join it is no longer alive);
if no thread was ever created the join is skipped. -/
def stop (s : State) : State :=
  let s1 : State := { s with stopSet := true }
  if s1.threadExists = true then { s1 with threadAlive := false } else s1

/-- `HttpRunMonitor.is_active` (run_monitor.py lines 51-53). -/
def is_active (s : State) : Bool :=
  s.threadExists && s.threadAlive && !s.stopSet

/-- The worker thread finishing `_monitor_loop`: the thread is no longer
alive and `self._last_status` holds the loop's final value. -/
def loopExit (s : State) (r : LoopResult) : State :=
  { s with threadAlive := false, lastStatus := r.lastStatus }

/-- A poll iteration in which `retrieve_run` succeeds with status `s` and
payload `d`, `get_pending_actions` succeeds with `acts`, and no callback
raises. -/
def cleanInput (s : String) (d : Nat) (acts : List Nat) : PollInput :=
  ⟨.ok ⟨s, d⟩, .ok acts, none, none, none⟩

/-- A sequence of polls that each succeed with the given status (payload 0,
no pending actions, no callback raising). -/
def cleanInputs (l : List String) : List PollInput :=
  l.map fun s => cleanInput s 0 []

end HttpRunMonitor

/-- The `on_status_change` invocations the specification predicts for a
sequence of successfully polled statuses, starting from previously observed
value `last`: one invocation per poll whose status differs from the
previously observed value (including the first poll, where that value is
`none`), and none when a poll repeats the previous status; the observed
value is updated to the new status after each invocation. -/
def specStatusChanges (runId : String) (last : Option String) :
    List String → List Event
  | [] => []
  | s :: rest =>
    if last = some s then specStatusChanges runId last rest
    else .statusChange runId s last 0 :: specStatusChanges runId (some s) rest

/-- One message written through the process-wide logging facility. -/
inductive LogEntry where
  | info (message : String)
  | error (message : String)
deriving DecidableEq

namespace MonitorLauncher

/-- `MonitorLauncher._monitor_loop` (monitor_launcher.py lines 58-64): the
body of the launch thread.  Inside `try` it logs the start message and calls
`self.monitor.start()`, whose outcome is the parameter; `except Exception`
converts any exception into an error log entry.  The function is total: no
exception propagates out of the thread body. -/
def monitorLoopBody (runId : String) (startOutcome : Except String Unit) :
    List LogEntry :=
  match startOutcome with
  | .ok _ => [.info ("[MonitorLauncher] Starting monitor for run " ++ runId)]
  | .error e =>
    [.info ("[MonitorLauncher] Starting monitor for run " ++ runId),
     .error ("[MonitorLauncher] Monitoring thread failed: " ++ e)]

/-- `MonitorLauncher.__init__` (monitor_launcher.py lines 10-56): after
installing default callbacks it constructs the underlying monitor via
`self.events.HttpRunMonitor(...)`.  That construction is not wrapped in any
`try/except`, so a failure there (for example the default `events=None`
making the attribute access raise `AttributeError`) propagates to the
caller; nothing is logged for it. -/
def init (runId : String) (ctorOutcome : Except String HttpRunMonitor.State) :
    Except String (String × HttpRunMonitor.State) :=
  match ctorOutcome with
  | .ok m => .ok (runId, m)
  | .error e => .error e

end MonitorLauncher

/-- The configuration of the spec's example scenario: terminal set
`completed / failed / cancelled`, action-required constant
`action_required`, `on_action_required` supplied. -/
def cfgW : MonitorConfig :=
  ⟨"r", ["completed", "failed", "cancelled"], "action_required", true⟩

/-- The polled iterations of the spec's example scenario; the
`action_required` poll fetches the pending-action list `[40]` in its own
iteration (each iteration is given a distinct payload and pending-action
list so the trace shows which iteration's fetch each callback received). -/
def inputs6 : List PollInput :=
  [HttpRunMonitor.cleanInput "queued" 1 [10],
   HttpRunMonitor.cleanInput "queued" 2 [20],
   HttpRunMonitor.cleanInput "running" 3 [30],
   HttpRunMonitor.cleanInput "action_required" 4 [40],
   HttpRunMonitor.cleanInput "running" 5 [50],
   HttpRunMonitor.cleanInput "completed" 6 [60]]

/-- A poll iteration in which the run is `action_required`, the pending
actions are fetched successfully, and the `on_action_required` callback
raises an exception with message `boom`. -/
def iRaise : PollInput := ⟨.ok ⟨"action_required", 0⟩, .ok [1], none, some "boom", none⟩

/-- A subsequent successful poll with status `running`. -/
def iRunning : PollInput := HttpRunMonitor.cleanInput "running" 0 []

namespace HttpRunMonitor

theorem actionEvents_mem (cfg : MonitorConfig) (run : Run) (inp : PollInput) :
    ∀ ev ∈ actionEvents cfg run inp,
      ev.isStatusChange = false ∧ ev.isComplete = false := by
  intro ev hev
  unfold actionEvents at hev
  split at hev
  · split at hev
    · simp only [List.mem_singleton] at hev
      subst hev; exact ⟨rfl, rfl⟩
    · split at hev
      · simp only [List.mem_cons, List.not_mem_nil, or_false] at hev
        rcases hev with rfl | rfl <;> exact ⟨rfl, rfl⟩
      · simp only [List.mem_singleton] at hev
        subst hev; exact ⟨rfl, rfl⟩
  · simp at hev

theorem actionEvents_countP_complete (cfg : MonitorConfig) (run : Run) (inp : PollInput) :
    (actionEvents cfg run inp).countP Event.isComplete = 0 := by
  rw [List.countP_eq_zero]
  intro ev hev
  simp [(actionEvents_mem cfg run inp ev hev).2]

theorem actionEvents_filter_statusChange (cfg : MonitorConfig) (run : Run) (inp : PollInput) :
    (actionEvents cfg run inp).filter Event.isStatusChange = [] := by
  rw [List.filter_eq_nil_iff]
  intro ev hev
  simp [(actionEvents_mem cfg run inp ev hev).1]

theorem terminalCheck_lastStatus (cfg : MonitorConfig) (run : Run) (inp : PollInput)
    (evs : List Event) (last : Option String) :
    (terminalCheck cfg run inp evs last).lastStatus = last := by
  unfold terminalCheck
  split
  · split <;> rfl
  · rfl

theorem terminalCheck_cont (cfg : MonitorConfig) (run : Run) (inp : PollInput)
    (evs : List Event) (last : Option String) :
    (terminalCheck cfg run inp evs last).cont = true ↔
      run.status ∉ cfg.terminalStatuses := by
  unfold terminalCheck
  split
  · split <;> simp_all
  · simp_all

theorem terminalCheck_filter_statusChange (cfg : MonitorConfig) (run : Run) (inp : PollInput)
    (evs : List Event) (last : Option String) :
    ((terminalCheck cfg run inp evs last).events).filter Event.isStatusChange
      = evs.filter Event.isStatusChange := by
  unfold terminalCheck
  split
  · split <;> simp [List.filter_append, Event.isStatusChange]
  · rfl

theorem terminalCheck_countP_complete (cfg : MonitorConfig) (run : Run) (inp : PollInput)
    (evs : List Event) (last : Option String) :
    ((terminalCheck cfg run inp evs last).events).countP Event.isComplete
      = evs.countP Event.isComplete
        + (if run.status ∈ cfg.terminalStatuses then 1 else 0) := by
  unfold terminalCheck
  split
  · split <;> simp_all [List.countP_append, List.countP_cons, Event.isComplete]
  · simp_all

theorem terminalCheck_complete_mem (cfg : MonitorConfig) (run : Run) (inp : PollInput)
    (evs : List Event) (last : Option String) (rid s : String) (d : Nat) :
    Event.complete rid s d ∈ (terminalCheck cfg run inp evs last).events →
      Event.complete rid s d ∈ evs
      ∨ (rid = cfg.runId ∧ s = run.status ∧ run.status ∈ cfg.terminalStatuses) := by
  unfold terminalCheck
  split
  · split <;> intro h <;>
      simp only [List.mem_append, List.mem_cons, List.not_mem_nil, or_false,
        Event.complete.injEq] at h <;>
      [skip; skip] <;> rcases h with h | h
    · exact Or.inl h
    · rcases h with ⟨h1, h2, _⟩ | h'
      · exact Or.inr ⟨h1, h2, by assumption⟩
      · simp at h'
    · exact Or.inl h
    · rcases h with ⟨h1, h2, _⟩
      exact Or.inr ⟨h1, h2, by assumption⟩
  · intro h; exact Or.inl h

theorem terminalCheck_not_terminal (cfg : MonitorConfig) (run : Run) (inp : PollInput)
    (evs : List Event) (last : Option String)
    (h : run.status ∉ cfg.terminalStatuses) :
    terminalCheck cfg run inp evs last = ⟨evs, last, true⟩ := by
  unfold terminalCheck
  rw [if_neg h]

theorem monitorLoop_cons (cfg : MonitorConfig) (last : Option String)
    (inp : PollInput) (rest : List PollInput) :
    monitorLoop cfg last (inp :: rest)
      = if (stepIter cfg last inp).cont then
          ⟨(stepIter cfg last inp).events
              ++ (monitorLoop cfg (stepIter cfg last inp).lastStatus rest).events,
            (monitorLoop cfg (stepIter cfg last inp).lastStatus rest).lastStatus,
            (monitorLoop cfg (stepIter cfg last inp).lastStatus rest).pollCount + 1⟩
        else ⟨(stepIter cfg last inp).events, (stepIter cfg last inp).lastStatus, 1⟩ := rfl

theorem stepIter_fetch_error (cfg : MonitorConfig) (last : Option String)
    (inp : PollInput) (e : String) (h : inp.fetchRun = .error e) :
    stepIter cfg last inp
      = ⟨[.error cfg.runId ("Run monitoring error: " ++ e)], last, false⟩ := by
  unfold stepIter
  rw [h]

theorem stepIter_statusChange_raises (cfg : MonitorConfig) (last : Option String)
    (inp : PollInput) (run : Run) (e : String)
    (hfr : inp.fetchRun = .ok run) (hr : inp.statusChangeRaises = some e)
    (hne : last ≠ some run.status) :
    stepIter cfg last inp
      = ⟨[.statusChange cfg.runId run.status last run.data,
          .error cfg.runId ("Run monitoring error: " ++ e)], last, false⟩ := by
  unfold stepIter
  rw [hfr, hr]
  simp [hne]

theorem stepIter_clean (cfg : MonitorConfig) (last : Option String) (s : String)
    (d : Nat) (acts : List Nat) :
    stepIter cfg last (cleanInput s d acts)
      = terminalCheck cfg ⟨s, d⟩ (cleanInput s d acts)
          ((if last = some s then [] else [.statusChange cfg.runId s last d])
            ++ actionEvents cfg ⟨s, d⟩ (cleanInput s d acts))
          (some s) := by
  unfold stepIter cleanInput
  by_cases h : last = some s
  · simp [h]
  · simp [h]

theorem stepIter_clean_lastStatus (cfg : MonitorConfig) (last : Option String)
    (s : String) (d : Nat) (acts : List Nat) :
    (stepIter cfg last (cleanInput s d acts)).lastStatus = some s := by
  rw [stepIter_clean]
  exact terminalCheck_lastStatus _ _ _ _ _

theorem stepIter_clean_cont (cfg : MonitorConfig) (last : Option String)
    (s : String) (d : Nat) (acts : List Nat) :
    (stepIter cfg last (cleanInput s d acts)).cont = true ↔
      s ∉ cfg.terminalStatuses := by
  rw [stepIter_clean]
  exact terminalCheck_cont _ _ _ _ _

theorem stepIter_clean_filter (cfg : MonitorConfig) (last : Option String)
    (s : String) (d : Nat) (acts : List Nat) :
    (stepIter cfg last (cleanInput s d acts)).events.filter Event.isStatusChange
      = if last = some s then [] else [.statusChange cfg.runId s last d] := by
  rw [stepIter_clean, terminalCheck_filter_statusChange, List.filter_append,
    actionEvents_filter_statusChange]
  split <;> simp [Event.isStatusChange]

theorem stepIter_countP_complete_le (cfg : MonitorConfig) (last : Option String)
    (inp : PollInput) :
    (stepIter cfg last inp).events.countP Event.isComplete ≤ 1 := by
  unfold stepIter
  split
  · simp [Event.isComplete]
  · split
    · split
      · simp [List.countP_cons, Event.isComplete]
      · rw [terminalCheck_countP_complete]
        simp only [List.countP_cons, actionEvents_countP_complete, Event.isComplete,
          Bool.false_eq_true, if_false, Nat.zero_add]
        split <;> simp
    · rw [terminalCheck_countP_complete]
      simp only [actionEvents_countP_complete, Nat.zero_add]
      split <;> simp

theorem stepIter_complete_mem (cfg : MonitorConfig) (last : Option String)
    (inp : PollInput) (rid s : String) (d : Nat) :
    Event.complete rid s d ∈ (stepIter cfg last inp).events →
      s ∈ cfg.terminalStatuses := by
  unfold stepIter
  split
  · intro h; simp at h
  · split
    · split
      · intro h; simp at h
      · intro h
        rcases terminalCheck_complete_mem _ _ _ _ _ _ _ _ h with h1 | h1
        · simp only [List.mem_cons] at h1
          rcases h1 with h1 | h1
          · simp at h1
          · have := (actionEvents_mem _ _ _ _ h1).2
            simp [Event.isComplete] at this
        · rw [h1.2.1]; exact h1.2.2
    · intro h
      rcases terminalCheck_complete_mem _ _ _ _ _ _ _ _ h with h1 | h1
      · have := (actionEvents_mem _ _ _ _ h1).2
        simp [Event.isComplete] at this
      · rw [h1.2.1]; exact h1.2.2

theorem stepIter_cont_no_complete (cfg : MonitorConfig) (last : Option String)
    (inp : PollInput) (hc : (stepIter cfg last inp).cont = true) :
    (stepIter cfg last inp).events.countP Event.isComplete = 0 := by
  revert hc
  unfold stepIter
  split
  · intro hc; simp at hc
  · split
    · split
      · intro hc; simp at hc
      · intro hc
        rw [terminalCheck_cont] at hc
        rw [terminalCheck_countP_complete]
        simp [List.countP_cons, actionEvents_countP_complete, Event.isComplete, hc]
    · intro hc
      rw [terminalCheck_cont] at hc
      rw [terminalCheck_countP_complete]
      simp [actionEvents_countP_complete, hc]

theorem stepIter_ok_noRaise (cfg : MonitorConfig) (last : Option String) (run : Run)
    (fa : Except String (List Nat)) (arr cr : Option String) :
    stepIter cfg last ⟨.ok run, fa, none, arr, cr⟩
      = terminalCheck cfg run ⟨.ok run, fa, none, arr, cr⟩
          ((if last = some run.status then []
            else [.statusChange cfg.runId run.status last run.data])
            ++ actionEvents cfg run ⟨.ok run, fa, none, arr, cr⟩)
          (some run.status) := by
  unfold stepIter
  by_cases h : last = some run.status <;> simp [h]

theorem actionEvents_fetch_error (cfg : MonitorConfig) (run : Run)
    (fr : Except String Run) (e : String) (a b c : Option String)
    (hs : run.status = cfg.actionRequiredStatus) (hh : cfg.hasActionRequired = true) :
    actionEvents cfg run ⟨fr, .error e, a, b, c⟩
      = [.error cfg.runId ("Error fetching actions: " ++ e)] := by
  unfold actionEvents
  rw [if_pos ⟨hs, hh⟩]

theorem actionEvents_callback_raises (cfg : MonitorConfig) (run : Run)
    (fr : Except String Run) (acts : List Nat) (e : String) (a c : Option String)
    (hs : run.status = cfg.actionRequiredStatus) (hh : cfg.hasActionRequired = true) :
    actionEvents cfg run ⟨fr, .ok acts, a, some e, c⟩
      = [.actionRequired cfg.runId run.data acts,
         .error cfg.runId ("Error fetching actions: " ++ e)] := by
  unfold actionEvents
  rw [if_pos ⟨hs, hh⟩]

theorem monitorLoop_clean_statusChanges (cfg : MonitorConfig) (l : List String) :
    ∀ last : Option String,
      (monitorLoop cfg last (cleanInputs l)).events.filter Event.isStatusChange
        = specStatusChanges cfg.runId last
            (l.take (monitorLoop cfg last (cleanInputs l)).pollCount) := by
  induction l with
  | nil => intro last; simp [cleanInputs, monitorLoop, specStatusChanges]
  | cons s rest ih =>
    intro last
    have hcons : cleanInputs (s :: rest) = cleanInput s 0 [] :: cleanInputs rest := rfl
    rw [hcons, monitorLoop_cons]
    by_cases hterm : s ∈ cfg.terminalStatuses
    · have hc : (stepIter cfg last (cleanInput s 0 [])).cont = false := by
        rw [← Bool.not_eq_true, stepIter_clean_cont]
        simp [hterm]
      rw [hc]
      simp only [Bool.false_eq_true, if_false, List.take_succ_cons, List.take_zero]
      rw [stepIter_clean_filter]
      by_cases h : last = some s <;> simp [h, specStatusChanges]
    · have hc : (stepIter cfg last (cleanInput s 0 [])).cont = true := by
        rw [stepIter_clean_cont]; exact hterm
      rw [hc]
      simp only [if_true, List.take_succ_cons]
      rw [List.filter_append, stepIter_clean_filter, stepIter_clean_lastStatus, ih]
      by_cases h : last = some s <;> simp [h, specStatusChanges]

theorem monitorLoop_countP_complete (cfg : MonitorConfig) (inputs : List PollInput) :
    ∀ last : Option String,
      (monitorLoop cfg last inputs).events.countP Event.isComplete ≤ 1 := by
  induction inputs with
  | nil => intro last; simp [monitorLoop]
  | cons inp rest ih =>
    intro last
    rw [monitorLoop_cons]
    by_cases hc : (stepIter cfg last inp).cont = true
    · rw [hc]
      simp only [if_true, List.countP_append]
      rw [stepIter_cont_no_complete cfg last inp hc]
      simpa using ih _
    · rw [Bool.not_eq_true] at hc
      rw [hc]
      simpa using stepIter_countP_complete_le cfg last inp

theorem monitorLoop_complete_mem (cfg : MonitorConfig) (inputs : List PollInput) :
    ∀ (last : Option String) (rid s : String) (d : Nat),
      Event.complete rid s d ∈ (monitorLoop cfg last inputs).events →
        s ∈ cfg.terminalStatuses := by
  induction inputs with
  | nil => intro last rid s d h; simp [monitorLoop] at h
  | cons inp rest ih =>
    intro last rid s d h
    rw [monitorLoop_cons] at h
    by_cases hc : (stepIter cfg last inp).cont = true
    · rw [hc] at h
      simp only [if_true, List.mem_append] at h
      rcases h with h | h
      · exact stepIter_complete_mem cfg last inp rid s d h
      · exact ih _ rid s d h
    · rw [Bool.not_eq_true] at hc
      rw [hc] at h
      simp only [Bool.false_eq_true, if_false] at h
      exact stepIter_complete_mem cfg last inp rid s d h

theorem monitorLoop_complete_frame (cfg : MonitorConfig) (inputs : List PollInput) :
    ∀ (last : Option String) (extra : List PollInput),
      (monitorLoop cfg last inputs).events.any Event.isComplete = true →
        monitorLoop cfg last (inputs ++ extra) = monitorLoop cfg last inputs := by
  induction inputs with
  | nil => intro last extra h; simp [monitorLoop] at h
  | cons inp rest ih =>
    intro last extra h
    rw [monitorLoop_cons] at h
    rw [List.cons_append, monitorLoop_cons, monitorLoop_cons]
    by_cases hc : (stepIter cfg last inp).cont = true
    · rw [hc] at h ⊢
      simp only [if_true, List.any_append] at h ⊢
      have h0 : (stepIter cfg last inp).events.any Event.isComplete = false := by
        have hcount := stepIter_cont_no_complete cfg last inp hc
        rw [List.countP_eq_zero] at hcount
        simp only [List.any_eq_false]
        exact hcount
      rw [h0, Bool.false_or] at h
      rw [ih _ extra h]
    · rw [Bool.not_eq_true] at hc
      rw [hc]
      simp

end HttpRunMonitor

section Claims

open HttpRunMonitor

/-- C1: along any sequence of successfully polled statuses,
`on_status_change` is invoked exactly once per performed poll whose status
differs from the previously observed value (including the first poll, where
that value is unset) and never when two consecutive polls agree; an
iteration always leaves `_last_status` equal to the polled status; and when
`on_status_change` itself raises, the callback was invoked first and
`_last_status` keeps its old value, so the update happens only after the
invocation. -/
theorem run_monitor_status_change_per_transition (cfg : MonitorConfig)
    (statuses : List String) (last : Option String) :
    ((monitorLoop cfg last (cleanInputs statuses)).events.filter Event.isStatusChange
      = specStatusChanges cfg.runId last
          (statuses.take (monitorLoop cfg last (cleanInputs statuses)).pollCount))
    ∧ (∀ (s : String) (d : Nat) (acts : List Nat) (l : Option String),
        (stepIter cfg l (cleanInput s d acts)).lastStatus = some s)
    ∧ (∀ (l : Option String) (inp : PollInput) (run : Run) (e : String),
        inp.fetchRun = .ok run → inp.statusChangeRaises = some e →
        l ≠ some run.status →
          (stepIter cfg l inp).events.head?
              = some (.statusChange cfg.runId run.status l run.data)
            ∧ (stepIter cfg l inp).lastStatus = l) :=
  ⟨monitorLoop_clean_statusChanges cfg statuses last,
   fun s d acts l => stepIter_clean_lastStatus cfg l s d acts,
   fun l inp run e h1 h2 h3 => by
     rw [stepIter_statusChange_raises cfg l inp run e h1 h2 h3]
     exact ⟨rfl, rfl⟩⟩

theorem run_monitor_status_change_per_transition_witness :
    (stepIter cfgW none ⟨.ok ⟨"queued", 0⟩, .ok [], some "boom", none, none⟩).events.head?
        = some (.statusChange "r" "queued" none 0)
      ∧ (stepIter cfgW none
          ⟨.ok ⟨"queued", 0⟩, .ok [], some "boom", none, none⟩).lastStatus = none :=
  (run_monitor_status_change_per_transition cfgW [] none).2.2 none
    ⟨.ok ⟨"queued", 0⟩, .ok [], some "boom", none, none⟩ ⟨"queued", 0⟩ "boom"
    rfl rfl (by decide)

/-- C2: over any sequence of poll outcomes, `on_complete` is invoked at most
once, every `on_complete` invocation carries a status in the configured
terminal set, and once a completion has been observed, extending the input
stream changes nothing: the loop performs no further polls. -/
theorem run_monitor_on_complete_once_terminal (cfg : MonitorConfig)
    (last : Option String) (inputs : List PollInput) :
    ((monitorLoop cfg last inputs).events.countP Event.isComplete ≤ 1)
    ∧ (∀ (rid s : String) (d : Nat),
        Event.complete rid s d ∈ (monitorLoop cfg last inputs).events →
          s ∈ cfg.terminalStatuses)
    ∧ (∀ extra : List PollInput,
        (monitorLoop cfg last inputs).events.any Event.isComplete = true →
          monitorLoop cfg last (inputs ++ extra) = monitorLoop cfg last inputs) :=
  ⟨monitorLoop_countP_complete cfg inputs last,
   fun rid s d h => monitorLoop_complete_mem cfg inputs last rid s d h,
   fun extra h => monitorLoop_complete_frame cfg inputs last extra h⟩

theorem run_monitor_on_complete_once_terminal_witness :
    "completed" ∈ cfgW.terminalStatuses
    ∧ monitorLoop cfgW none ([cleanInput "completed" 0 []] ++ [cleanInput "queued" 0 []])
        = monitorLoop cfgW none [cleanInput "completed" 0 []] :=
  ⟨(run_monitor_on_complete_once_terminal cfgW none
      [cleanInput "completed" 0 []]).2.1 "r" "completed" 0 (by decide),
   (run_monitor_on_complete_once_terminal cfgW none
      [cleanInput "completed" 0 []]).2.2 [cleanInput "queued" 0 []] (by decide)⟩

/-- C3: a failing `retrieve_run` produces exactly one `on_error` invocation
with the `Run monitoring error: ` message and terminates the loop in that
very iteration, regardless of any further available polls (no retry); a
failing `get_pending_actions` fetch (status equal to the action-required
constant, `on_action_required` supplied) produces an `on_error` invocation
with the `Error fetching actions: ` message and the loop continues with the
next poll. -/
theorem run_monitor_fetch_failure_semantics (cfg : MonitorConfig)
    (last : Option String) (rest : List PollInput) :
    (∀ (e : String) (fa : Except String (List Nat)) (a b c : Option String),
        monitorLoop cfg last (⟨.error e, fa, a, b, c⟩ :: rest)
          = ⟨[.error cfg.runId ("Run monitoring error: " ++ e)], last, 1⟩)
    ∧ (∀ (d : Nat) (e : String),
        cfg.hasActionRequired = true →
        cfg.actionRequiredStatus ∉ cfg.terminalStatuses →
          (stepIter cfg last
              ⟨.ok ⟨cfg.actionRequiredStatus, d⟩, .error e, none, none, none⟩).cont = true
          ∧ Event.error cfg.runId ("Error fetching actions: " ++ e)
              ∈ (stepIter cfg last
                  ⟨.ok ⟨cfg.actionRequiredStatus, d⟩, .error e, none, none, none⟩).events
          ∧ (monitorLoop cfg last
              (⟨.ok ⟨cfg.actionRequiredStatus, d⟩, .error e, none, none, none⟩ :: rest)).pollCount
              = (monitorLoop cfg (some cfg.actionRequiredStatus) rest).pollCount + 1) := by
  constructor
  · intro e fa a b c
    rw [monitorLoop_cons, stepIter_fetch_error cfg last _ e rfl]
    simp
  · intro d e hAR hnt
    have hstep := stepIter_ok_noRaise cfg last ⟨cfg.actionRequiredStatus, d⟩
      (.error e) none none
    rw [terminalCheck_not_terminal _ _ _ _ _ hnt,
      actionEvents_fetch_error _ _ _ _ _ _ _ rfl hAR] at hstep
    refine ⟨by rw [hstep], by rw [hstep]; simp, ?_⟩
    rw [monitorLoop_cons, hstep]
    simp

theorem run_monitor_fetch_failure_semantics_witness :
    monitorLoop cfgW none [(⟨.error "net down", .ok [], none, none, none⟩ : PollInput)]
        = ⟨[.error cfgW.runId ("Run monitoring error: " ++ "net down")], none, 1⟩
    ∧ (stepIter cfgW none
        ⟨.ok ⟨cfgW.actionRequiredStatus, 0⟩, .error "boom", none, none, none⟩).cont = true :=
  ⟨(run_monitor_fetch_failure_semantics cfgW none []).1 "net down" (.ok []) none none none,
   ((run_monitor_fetch_failure_semantics cfgW none []).2 0 "boom" rfl (by decide)).1⟩

/-- C4 counterexample: with `on_action_required` supplied, polling
`action_required` (pending actions fetched as `[1]`) while the
`on_action_required` callback raises `boom` does not abort the loop: the
callback is invoked, the exception is converted to an `on_error` invocation,
and a second poll is still performed (`pollCount = 2`), contradicting the
claim that an exception in any caller-supplied callback aborts the polling
loop. -/
theorem action_required_callback_exception_continues_cex :
    (monitorLoop cfgW none [iRaise, iRunning]).pollCount = 2
    ∧ Event.actionRequired "r" 0 [1] ∈ (monitorLoop cfgW none [iRaise, iRunning]).events
    ∧ Event.error "r" "Error fetching actions: boom"
        ∈ (monitorLoop cfgW none [iRaise, iRunning]).events := by
  decide

/-- C4 amended: an exception raised inside `on_status_change` or
`on_complete` reaches the iteration's outer exception handler, is reported
through `on_error` with the `Run monitoring error: ` message, and aborts
the polling loop; an exception raised inside `on_action_required` is caught
by the action-fetch handler, reported through `on_error` with the
`Error fetching actions: ` message, and the loop continues. -/
theorem callback_exception_policy (cfg : MonitorConfig) (l : Option String) :
    (∀ (inp : PollInput) (run : Run) (e : String),
        inp.fetchRun = .ok run → inp.statusChangeRaises = some e →
        l ≠ some run.status →
          (stepIter cfg l inp).cont = false
          ∧ Event.error cfg.runId ("Run monitoring error: " ++ e)
              ∈ (stepIter cfg l inp).events)
    ∧ (∀ (run : Run) (fa : Except String (List Nat)) (arr : Option String) (e : String),
        run.status ∈ cfg.terminalStatuses →
          (stepIter cfg l ⟨.ok run, fa, none, arr, some e⟩).cont = false
          ∧ Event.error cfg.runId ("Run monitoring error: " ++ e)
              ∈ (stepIter cfg l ⟨.ok run, fa, none, arr, some e⟩).events)
    ∧ (∀ (run : Run) (acts : List Nat) (e : String) (cr : Option String),
        run.status = cfg.actionRequiredStatus → cfg.hasActionRequired = true →
        run.status ∉ cfg.terminalStatuses →
          (stepIter cfg l ⟨.ok run, .ok acts, none, some e, cr⟩).cont = true
          ∧ Event.actionRequired cfg.runId run.data acts
              ∈ (stepIter cfg l ⟨.ok run, .ok acts, none, some e, cr⟩).events
          ∧ Event.error cfg.runId ("Error fetching actions: " ++ e)
              ∈ (stepIter cfg l ⟨.ok run, .ok acts, none, some e, cr⟩).events) := by
  refine ⟨fun inp run e h1 h2 h3 => ?_, fun run fa arr e hterm => ?_, fun run acts e cr hs hh hnt => ?_⟩
  · rw [stepIter_statusChange_raises cfg l inp run e h1 h2 h3]
    exact ⟨rfl, by simp⟩
  · rw [stepIter_ok_noRaise]
    unfold terminalCheck
    rw [if_pos hterm]
    exact ⟨rfl, by simp⟩
  · rw [stepIter_ok_noRaise, terminalCheck_not_terminal _ _ _ _ _ hnt,
      actionEvents_callback_raises _ _ _ _ _ _ _ hs hh]
    exact ⟨rfl, by simp, by simp⟩

theorem callback_exception_policy_witness :
    ((stepIter cfgW none ⟨.ok ⟨"queued", 0⟩, .ok [], some "x", none, none⟩).cont = false
      ∧ Event.error cfgW.runId ("Run monitoring error: " ++ "x")
          ∈ (stepIter cfgW none ⟨.ok ⟨"queued", 0⟩, .ok [], some "x", none, none⟩).events)
    ∧ ((stepIter cfgW none ⟨.ok ⟨"completed", 0⟩, .ok [], none, none, some "y"⟩).cont = false)
    ∧ ((stepIter cfgW none ⟨.ok ⟨"action_required", 0⟩, .ok [2], none, some "z", none⟩).cont = true) :=
  ⟨(callback_exception_policy cfgW none).1
      ⟨.ok ⟨"queued", 0⟩, .ok [], some "x", none, none⟩ ⟨"queued", 0⟩ "x"
      rfl rfl (by decide),
   ((callback_exception_policy cfgW none).2.1 ⟨"completed", 0⟩ (.ok []) none "y"
      (by decide)).1,
   ((callback_exception_policy cfgW none).2.2 ⟨"action_required", 0⟩ [2] "z" none
      rfl rfl (by decide)).1⟩

/-- C5 counterexample: an exception raised while constructing the underlying
`HttpRunMonitor` inside `MonitorLauncher.__init__` (for example the default
`events=None` making `self.events.HttpRunMonitor` raise `AttributeError`)
propagates to the launching application instead of being logged: the
construction is not wrapped in any `try/except`. -/
theorem launcher_ctor_exception_propagates_cex :
    MonitorLauncher.init "run_x" (.error "AttributeError") = .error "AttributeError" := rfl

/-- C5 amended: an exception escaping the monitor's `start()` call inside
the launcher's background-thread body is caught there and logged rather
than propagated (the body is total and ends with an error log entry), and
on success only the start log entry is produced; however an exception
raised while constructing the monitor in `MonitorLauncher.__init__`
propagates to the launching application. -/
theorem launcher_start_guard (runId e : String) :
    MonitorLauncher.monitorLoopBody runId (.error e)
        = [.info ("[MonitorLauncher] Starting monitor for run " ++ runId),
           .error ("[MonitorLauncher] Monitoring thread failed: " ++ e)]
    ∧ MonitorLauncher.monitorLoopBody runId (.ok ())
        = [.info ("[MonitorLauncher] Starting monitor for run " ++ runId)]
    ∧ MonitorLauncher.init runId (.error e) = .error e :=
  ⟨rfl, rfl, rfl⟩

/-- C6: the spec's example scenario.  Polling statuses
`queued, queued, running, action_required, running, completed` with the
terminal set `completed / failed / cancelled`, the action-required constant
`action_required` and `on_action_required` supplied yields exactly the five
status-change invocations (none for the repeated `queued`), exactly one
`on_action_required` invocation carrying the pending actions `[40]` fetched
during the `action_required` iteration itself, and exactly one `on_complete`
invocation at `completed`; all six polls are performed and appending a
further poll changes nothing (polling has stopped). -/
theorem example_scenario_trace :
    monitorLoop cfgW none inputs6
      = ⟨[.statusChange "r" "queued" none 1,
          .statusChange "r" "running" (some "queued") 3,
          .statusChange "r" "action_required" (some "running") 4,
          .actionRequired "r" 4 [40],
          .statusChange "r" "running" (some "action_required") 5,
          .statusChange "r" "completed" (some "running") 6,
          .complete "r" "completed" 6],
         some "completed", 6⟩
    ∧ monitorLoop cfgW none (inputs6 ++ [cleanInput "running" 7 []])
        = monitorLoop cfgW none inputs6 := by
  decide

/-- C7: when `retrieve_run` raises on the very first poll of a freshly
constructed and started monitor, the loop produces exactly one `on_error`
invocation and nothing else — no `on_status_change`, no `on_complete` —
stops after that single poll, and once the worker thread has exited,
`is_active()` returns false. -/
theorem first_poll_fetch_error_behavior (cfg : MonitorConfig) (e : String)
    (fa : Except String (List Nat)) (a b c : Option String) (rest : List PollInput) :
    (monitorLoop cfg none (⟨.error e, fa, a, b, c⟩ :: rest)).events
        = [.error cfg.runId ("Run monitoring error: " ++ e)]
    ∧ (monitorLoop cfg none (⟨.error e, fa, a, b, c⟩ :: rest)).pollCount = 1
    ∧ (monitorLoop cfg none (⟨.error e, fa, a, b, c⟩ :: rest)).events.countP
        Event.isError = 1
    ∧ (monitorLoop cfg none (⟨.error e, fa, a, b, c⟩ :: rest)).events.countP
        Event.isStatusChange = 0
    ∧ (monitorLoop cfg none (⟨.error e, fa, a, b, c⟩ :: rest)).events.countP
        Event.isComplete = 0
    ∧ is_active (loopExit (HttpRunMonitor.start State.initial).1
        (monitorLoop cfg none (⟨.error e, fa, a, b, c⟩ :: rest))) = false := by
  have hloop : monitorLoop cfg none (⟨.error e, fa, a, b, c⟩ :: rest)
      = ⟨[.error cfg.runId ("Run monitoring error: " ++ e)], none, 1⟩ := by
    rw [monitorLoop_cons, stepIter_fetch_error cfg none _ e rfl]
    simp
  rw [hloop]
  refine ⟨rfl, rfl, ?_, ?_, ?_, rfl⟩
  · simp [Event.isError]
  · simp [Event.isStatusChange]
  · simp [Event.isComplete]

/-- C8: `start()` is idempotent — if a monitor thread exists and is alive it
returns without spawning anything or changing any state — and calling
`start()` twice in succession on a fresh monitor spawns a thread on the
first call only, leaving exactly one live polling thread. -/
theorem start_idempotent_single_thread :
    (∀ s : State, s.threadExists = true → s.threadAlive = true →
        HttpRunMonitor.start s = (s, false))
    ∧ ((HttpRunMonitor.start State.initial).2 = true
        ∧ ((HttpRunMonitor.start State.initial).1).threadAlive = true
        ∧ HttpRunMonitor.start (HttpRunMonitor.start State.initial).1
            = ((HttpRunMonitor.start State.initial).1, false)) := by
  constructor
  · intro s h1 h2
    unfold HttpRunMonitor.start
    rw [if_pos ⟨h1, h2⟩]
  · exact ⟨rfl, rfl, by decide⟩

theorem start_idempotent_single_thread_witness :
    HttpRunMonitor.start ⟨true, true, false, some "running"⟩
      = (⟨true, true, false, some "running"⟩, false) :=
  start_idempotent_single_thread.1 ⟨true, true, false, some "running"⟩ rfl rfl

/-- C9: calling `stop()` on a never-started monitor is safe (it is a total
operation on the initial state: the stop event is set and the join is
skipped because no thread exists) and leaves `is_active()` false. -/
theorem stop_before_start_safe :
    HttpRunMonitor.stop State.initial = ⟨false, false, true, none⟩
    ∧ is_active (HttpRunMonitor.stop State.initial) = false := by
  decide

/-- C10: after the polling loop has exited, calling `start()` again spawns a
new polling thread, but `_last_status` is not reset: it retains the final
value of the previous session, so if the restarted monitor's first poll
returns that same status, no `on_status_change` invocation occurs in that
iteration. -/
theorem restart_retains_last_status (cfg : MonitorConfig) (st : State)
    (inputs : List PollInput) :
    ((HttpRunMonitor.start (loopExit st (monitorLoop cfg st.lastStatus inputs))).2 = true)
    ∧ ((HttpRunMonitor.start (loopExit st (monitorLoop cfg st.lastStatus inputs))).1.lastStatus
        = (monitorLoop cfg st.lastStatus inputs).lastStatus)
    ∧ (∀ (s : String) (d : Nat) (fa : Except String (List Nat)) (arr cr : Option String),
        (monitorLoop cfg st.lastStatus inputs).lastStatus = some s →
          ((stepIter cfg
              (HttpRunMonitor.start
                (loopExit st (monitorLoop cfg st.lastStatus inputs))).1.lastStatus
              ⟨.ok ⟨s, d⟩, fa, none, arr, cr⟩).events.filter Event.isStatusChange) = []) := by
  have hneg : ¬ ((loopExit st (monitorLoop cfg st.lastStatus inputs)).threadExists = true
      ∧ (loopExit st (monitorLoop cfg st.lastStatus inputs)).threadAlive = true) := by
    simp [loopExit]
  have hstart : HttpRunMonitor.start (loopExit st (monitorLoop cfg st.lastStatus inputs))
      = ({ loopExit st (monitorLoop cfg st.lastStatus inputs) with
            threadExists := true, threadAlive := true, stopSet := false }, true) := by
    unfold HttpRunMonitor.start
    rw [if_neg hneg]
  refine ⟨by rw [hstart], by rw [hstart]; rfl, ?_⟩
  intro s d fa arr cr hlast
  have hl : (HttpRunMonitor.start
      (loopExit st (monitorLoop cfg st.lastStatus inputs))).1.lastStatus = some s := by
    rw [hstart]
    exact hlast
  rw [hl, stepIter_ok_noRaise, terminalCheck_filter_statusChange, List.filter_append,
    actionEvents_filter_statusChange]
  simp

theorem restart_retains_last_status_witness :
    (HttpRunMonitor.start (loopExit State.initial
        (monitorLoop cfgW State.initial.lastStatus [cleanInput "running" 0 []]))).2 = true
    ∧ ((stepIter cfgW
          (HttpRunMonitor.start (loopExit State.initial
            (monitorLoop cfgW State.initial.lastStatus [cleanInput "running" 0 []]))).1.lastStatus
          ⟨.ok ⟨"running", 1⟩, .ok [], none, none, none⟩).events.filter
        Event.isStatusChange) = [] :=
  ⟨(restart_retains_last_status cfgW State.initial [cleanInput "running" 0 []]).1,
   (restart_retains_last_status cfgW State.initial [cleanInput "running" 0 []]).2.2
      "running" 1 (.ok []) none none (by decide)⟩

end Claims

end EntitiesSDK
